import Mathlib

/-!
Verification of the invoice-submission CLI (submit_invoice_to_foundry.py).

The embedding follows the source file closely:
  - `extract_invoice_fields` flattens the documents of an analysis result
    into per-document records (Python dicts, modelled as association lists
    of slot name to JSON-like value).
  - `analyze_invoice` checks the endpoint configuration and then delegates
    to the remote analysis collaborator (modelled as a parameter) before
    calling `extract_invoice_fields`.
  - `store_in_cosmos` validates the four Cosmos configuration values,
    builds the persisted envelope (fresh identifiers modelled as a supply
    `gen : Nat -> String`, the timestamp as a parameter), and returns the
    envelope; the network write itself is a black box.
  - `main` orchestrates the stages; it also returns the list of observable
    events (network calls, prints) that occurred before it finished or
    raised.
Python exceptions are modelled with `Except`; Python truthiness of the
relevant values (strings, dict values) is modelled explicitly.
-/

set_option autoImplicit false

namespace InvoiceCLI

/-- A JSON-like scalar slot value: null, string, or number.  The numeric
carrier is `Int`; no arithmetic is ever performed on values, they only
pass through, so the carrier is irrelevant to every property proved. -/
inductive Val where
  | null : Val
  | str : String → Val
  | num : Int → Val
deriving DecidableEq, Repr

/-- Python truthiness of a value: None, empty string and zero are falsy. -/
def valTruthy : Val → Bool
  | Val.null => false
  | Val.str s => !(s == "")
  | Val.num n => !(n == 0)

/-- Python truthiness of an optional environment string: an unset variable
and an empty string are both falsy (`if not env_value`). -/
def truthyStr : Option String → Bool
  | none => false
  | some s => !(s == "")

/-- The currency sub-value of a field (`value_currency`): an amount and a
currency code, per the documented data model of the analysis service. -/
structure CurrencyValue where
  amount : Int
  currency_code : String
deriving DecidableEq, Repr

/-- A detected field of a document, as accessed by the source: the typed
value attributes the extractor reads, each possibly absent. -/
structure DocumentField where
  value_string : Option String
  value_date : Option String
  value_currency : Option CurrencyValue
deriving DecidableEq, Repr

/-- One document of an analysis result: an optional field mapping
(`doc.fields` may be `None`) and a confidence score. -/
structure Document where
  fields : Option (List (String × DocumentField))
  confidence : Int
deriving DecidableEq, Repr

/-- The analysis result returned by the remote service: an ordered
sequence of documents. -/
structure AnalysisResult where
  documents : List Document
deriving DecidableEq, Repr

/-- A flattened per-document record: a Python dict from slot name to
value, modelled as an association list that keeps insertion order. -/
abbrev Record := List (String × Val)

/-- The output dict of the extractor.  Its `documents` key is optional so
that `store_in_cosmos` can be stated on arbitrary dict inputs
(`invoice_data.get("documents")`); the extractor always populates it. -/
structure ExtractionOutput where
  documents : Option (List Record)
deriving DecidableEq, Repr

/-- `fields.get(k)` on the field mapping: first entry with the key. -/
def fieldsGet (fs : List (String × DocumentField)) (k : String) : Option DocumentField :=
  List.lookup k fs

/-- `record.get(k)` on an output record. -/
def recGet (r : Record) (k : String) : Option Val :=
  List.lookup k r

/-- Python `str` applied to an optional date value: `str(None)` is the
string "None". -/
def pyStr : Option String → String
  | none => "None"
  | some s => s

/-- `fields.get(K).value_string if fields.get(K) else None`. -/
def strSlot : Option DocumentField → Val
  | none => Val.null
  | some f =>
    match f.value_string with
    | none => Val.null
    | some s => Val.str s

/-- `str(fields.get(K).value_date) if fields.get(K) else None`. -/
def dateSlot : Option DocumentField → Val
  | none => Val.null
  | some f => Val.str (pyStr f.value_date)

/-- `fields.get(K).value_currency.amount if fields.get(K) and
fields.get(K).value_currency else None`. -/
def amountSlot : Option DocumentField → Val
  | none => Val.null
  | some f =>
    match f.value_currency with
    | none => Val.null
    | some c => Val.num c.amount

/-- `fields.get(K).value_currency.currency_code if fields.get(K) and
fields.get(K).value_currency else None`. -/
def codeSlot : Option DocumentField → Val
  | none => Val.null
  | some f =>
    match f.value_currency with
    | none => Val.null
    | some c => Val.str c.currency_code

/-- The per-document dict literal built in the loop body of
`extract_invoice_fields` (source lines 48-59). -/
def extractDoc (doc : Document) : Record :=
  let fields := doc.fields.getD []
  [("vendorName", strSlot (fieldsGet fields "VendorName")),
   ("invoiceId", strSlot (fieldsGet fields "InvoiceId")),
   ("invoiceDate", dateSlot (fieldsGet fields "InvoiceDate")),
   ("customerName", strSlot (fieldsGet fields "CustomerName")),
   ("subTotal", amountSlot (fieldsGet fields "SubTotal")),
   ("totalTax", amountSlot (fieldsGet fields "TotalTax")),
   ("invoiceTotal", amountSlot (fieldsGet fields "InvoiceTotal")),
   ("currency", codeSlot (fieldsGet fields "InvoiceTotal")),
   ("confidence", Val.num doc.confidence)]

/-- `extract_invoice_fields` (source lines 43-62): one record per
document, appended in iteration order. -/
def extract_invoice_fields (result : AnalysisResult) : ExtractionOutput :=
  { documents := some (result.documents.map extractDoc) }

/-- The fixed slot names of an extracted record, in output order. -/
def slotNames : List String :=
  ["vendorName", "invoiceId", "invoiceDate", "customerName", "subTotal",
   "totalTax", "invoiceTotal", "currency", "confidence"]

/-- The environment variables the program reads (`os.environ.get`): each is
`none` when unset, `some s` when set to `s` (possibly the empty string). -/
structure Env where
  documentintelligence_endpoint : Option String
  documentintelligence_api_key : Option String
  cosmos_endpoint : Option String
  cosmos_key : Option String
  cosmos_database : Option String
  cosmos_container : Option String
deriving DecidableEq, Repr

/-- The missing-configuration list built in `store_in_cosmos` (source lines
92-101): names of the Cosmos variables whose value is falsy, in the order
of the dict literal. -/
def cosmosMissing (env : Env) : List String :=
  (([("COSMOS_ENDPOINT", env.cosmos_endpoint),
     ("COSMOS_KEY", env.cosmos_key),
     ("COSMOS_DATABASE", env.cosmos_database),
     ("COSMOS_CONTAINER", env.cosmos_container)].filter
       (fun p => !truthyStr p.2)).map Prod.fst)

/-- `(invoice_data.get("documents") or [{}])[0]` (source line 108): the
first extracted record, or an empty dict when the documents list is
missing or empty. -/
def first_document (invoice_data : ExtractionOutput) : Record :=
  let docs := invoice_data.documents.getD []
  (if docs.isEmpty then [([] : Record)] else docs).headD []

/-- `first_doc.get("invoiceId") or str(uuid4())`: keep the looked-up value
when it is truthy, otherwise use the fallback. -/
def orElseVal (v : Option Val) (fallback : Val) : Val :=
  match v with
  | none => fallback
  | some x => if valTruthy x then x else fallback

/-- The item dict written by `store_in_cosmos` (source lines 109-115). -/
structure Envelope where
  id : String
  invoiceId : Val
  sourceFile : String
  processedAtUtc : String
  extract : ExtractionOutput
deriving DecidableEq, Repr

/-- `store_in_cosmos` (source lines 85-122).  Fresh identifiers are drawn
from the supply `gen` in call order (`id` first, then the fallback
invoice identifier); `now` is the ISO timestamp; the remote write is
outside the model, so on success the built envelope is returned (the
source returns its `id` key).  A raised `ValueError` for missing
configuration is the `Except.error` case, carrying the message. -/
def store_in_cosmos (env : Env) (gen : Nat → String) (now : String)
    (invoice_data : ExtractionOutput) (source_file : String) :
    Except String Envelope :=
  let missing := cosmosMissing env
  if missing.isEmpty then
    Except.ok
      { id := gen 0
        invoiceId := orElseVal (recGet (first_document invoice_data) "invoiceId")
          (Val.str (gen 1))
        sourceFile := source_file
        processedAtUtc := now
        extract := invoice_data }
  else
    Except.error ("Missing required Cosmos DB configuration: " ++
      String.intercalate ", " missing)

/-- `analyze_invoice` (source lines 65-82): raises when the endpoint
configuration is falsy, otherwise performs the remote analysis (the
collaborator result is the parameter `result`) and extracts the fields. -/
def analyze_invoice (env : Env) (result : AnalysisResult) :
    Except String ExtractionOutput :=
  if truthyStr env.documentintelligence_endpoint then
    Except.ok (extract_invoice_fields result)
  else
    Except.error "Set DOCUMENTINTELLIGENCE_ENDPOINT in your environment."

/-- Observable side effects of a run, in order: the analysis network
submission, the Cosmos write, and the two prints of `main`. -/
inductive Event where
  | analyzeNetworkCall : Event
  | cosmosWrite : Event
  | printJson : Event
  | printSavedLine : Event
deriving DecidableEq, Repr

/-- The uncaught exceptions that can terminate `main` (each exits the
process with a non-zero status). -/
inductive MainError where
  | fileNotFound : String → MainError
  | valueError : String → MainError
deriving DecidableEq, Repr

/-- `main` (source lines 131-139), for a run on one file.  `fileExists` is
whether the positional path exists; `nm` is the file name; `result` is
what the analysis collaborator would return; `gen` and `now` are as in
`store_in_cosmos`.  Returns the events that happened, and either the
error that terminated the run or success. -/
def main (fileExists : Bool) (env : Env) (result : AnalysisResult)
    (gen : Nat → String) (now : String) (nm : String) :
    List Event × Except MainError Unit :=
  if !fileExists then
    ([], Except.error (MainError.fileNotFound ("Invoice file not found: " ++ nm)))
  else
    match analyze_invoice env result with
    | Except.error msg => ([], Except.error (MainError.valueError msg))
    | Except.ok invoice_data =>
      match store_in_cosmos env gen now invoice_data nm with
      | Except.error msg =>
        ([Event.analyzeNetworkCall], Except.error (MainError.valueError msg))
      | Except.ok _ =>
        ([Event.analyzeNetworkCall, Event.cosmosWrite, Event.printJson,
          Event.printSavedLine], Except.ok ())

end InvoiceCLI

namespace InvoiceCLI

/-! Helper lemmas: what each output slot of a record holds. -/

theorem recGet_extractDoc_vendorName (doc : Document) :
    recGet (extractDoc doc) "vendorName" =
      some (strSlot (fieldsGet (doc.fields.getD []) "VendorName")) := rfl

theorem recGet_extractDoc_invoiceId (doc : Document) :
    recGet (extractDoc doc) "invoiceId" =
      some (strSlot (fieldsGet (doc.fields.getD []) "InvoiceId")) := rfl

theorem recGet_extractDoc_invoiceDate (doc : Document) :
    recGet (extractDoc doc) "invoiceDate" =
      some (dateSlot (fieldsGet (doc.fields.getD []) "InvoiceDate")) := rfl

theorem recGet_extractDoc_customerName (doc : Document) :
    recGet (extractDoc doc) "customerName" =
      some (strSlot (fieldsGet (doc.fields.getD []) "CustomerName")) := rfl

theorem recGet_extractDoc_subTotal (doc : Document) :
    recGet (extractDoc doc) "subTotal" =
      some (amountSlot (fieldsGet (doc.fields.getD []) "SubTotal")) := rfl

theorem recGet_extractDoc_totalTax (doc : Document) :
    recGet (extractDoc doc) "totalTax" =
      some (amountSlot (fieldsGet (doc.fields.getD []) "TotalTax")) := rfl

theorem recGet_extractDoc_invoiceTotal (doc : Document) :
    recGet (extractDoc doc) "invoiceTotal" =
      some (amountSlot (fieldsGet (doc.fields.getD []) "InvoiceTotal")) := rfl

theorem recGet_extractDoc_currency (doc : Document) :
    recGet (extractDoc doc) "currency" =
      some (codeSlot (fieldsGet (doc.fields.getD []) "InvoiceTotal")) := rfl

theorem recGet_extractDoc_confidence (doc : Document) :
    recGet (extractDoc doc) "confidence" = some (Val.num doc.confidence) := rfl

/-- C1: for every AnalysisResult, the output of extract_invoice_fields
contains exactly one record per input document in the same order (the
documents list is the pointwise image of the input documents), and every
record lists exactly the nine slots, in order, each bound to a value of
the scalar-or-null type. -/
theorem extract_one_record_per_document (r : AnalysisResult) :
    (extract_invoice_fields r).documents = some (r.documents.map extractDoc) ∧
    ((extract_invoice_fields r).documents.getD []).length = r.documents.length ∧
    ∀ rec ∈ (extract_invoice_fields r).documents.getD [],
      rec.map Prod.fst = slotNames := by
  refine ⟨rfl, by simp [extract_invoice_fields], ?_⟩
  intro rec h
  simp only [extract_invoice_fields, Option.getD_some, List.mem_map] at h
  obtain ⟨d, _, rfl⟩ := h
  rfl

/-- A concrete document used by several witnesses. -/
def docVendorOnly : Document :=
  { fields := some [("VendorName",
      { value_string := some "Acme Co", value_date := none, value_currency := none })],
    confidence := 95 }

theorem extract_one_record_per_document_witness :
    (extract_invoice_fields { documents := [docVendorOnly] }).documents =
      some [extractDoc docVendorOnly] ∧
    (extractDoc docVendorOnly).map Prod.fst = slotNames := by
  refine ⟨(extract_one_record_per_document { documents := [docVendorOnly] }).1, ?_⟩
  exact (extract_one_record_per_document { documents := [docVendorOnly] }).2.2
    (extractDoc docVendorOnly) (by simp [extract_invoice_fields])

/-- C3: a field whose key is missing from the field mapping yields null in
its output slot, and for the currency-bearing slots a field that is
present but whose currency sub-value is missing also yields null. -/
theorem absent_fields_yield_null (doc : Document) :
    (fieldsGet (doc.fields.getD []) "VendorName" = none →
      recGet (extractDoc doc) "vendorName" = some Val.null) ∧
    (fieldsGet (doc.fields.getD []) "InvoiceId" = none →
      recGet (extractDoc doc) "invoiceId" = some Val.null) ∧
    (fieldsGet (doc.fields.getD []) "InvoiceDate" = none →
      recGet (extractDoc doc) "invoiceDate" = some Val.null) ∧
    (fieldsGet (doc.fields.getD []) "CustomerName" = none →
      recGet (extractDoc doc) "customerName" = some Val.null) ∧
    (fieldsGet (doc.fields.getD []) "SubTotal" = none →
      recGet (extractDoc doc) "subTotal" = some Val.null) ∧
    (fieldsGet (doc.fields.getD []) "TotalTax" = none →
      recGet (extractDoc doc) "totalTax" = some Val.null) ∧
    (fieldsGet (doc.fields.getD []) "InvoiceTotal" = none →
      recGet (extractDoc doc) "invoiceTotal" = some Val.null ∧
      recGet (extractDoc doc) "currency" = some Val.null) ∧
    (∀ f, fieldsGet (doc.fields.getD []) "SubTotal" = some f →
      f.value_currency = none → recGet (extractDoc doc) "subTotal" = some Val.null) ∧
    (∀ f, fieldsGet (doc.fields.getD []) "TotalTax" = some f →
      f.value_currency = none → recGet (extractDoc doc) "totalTax" = some Val.null) ∧
    (∀ f, fieldsGet (doc.fields.getD []) "InvoiceTotal" = some f →
      f.value_currency = none →
      recGet (extractDoc doc) "invoiceTotal" = some Val.null ∧
      recGet (extractDoc doc) "currency" = some Val.null) := by
  refine ⟨fun h => ?_, fun h => ?_, fun h => ?_, fun h => ?_, fun h => ?_, fun h => ?_,
    fun h => ⟨?_, ?_⟩, fun f hf hc => ?_, fun f hf hc => ?_, fun f hf hc => ⟨?_, ?_⟩⟩ <;>
    simp only [recGet_extractDoc_vendorName, recGet_extractDoc_invoiceId,
      recGet_extractDoc_invoiceDate, recGet_extractDoc_customerName,
      recGet_extractDoc_subTotal, recGet_extractDoc_totalTax,
      recGet_extractDoc_invoiceTotal, recGet_extractDoc_currency] <;>
    first
      | (rw [h]; rfl)
      | (rw [hf]; simp [amountSlot, codeSlot, hc])

/-- A document whose SubTotal field exists but has no currency sub-value. -/
def docSubTotalNoCurrency : Document :=
  { fields := some [("SubTotal",
      { value_string := none, value_date := none, value_currency := none })],
    confidence := 80 }

theorem absent_fields_yield_null_witness :
    recGet (extractDoc { fields := some [], confidence := 50 }) "vendorName" =
      some Val.null ∧
    recGet (extractDoc docSubTotalNoCurrency) "subTotal" = some Val.null := by
  refine ⟨(absent_fields_yield_null { fields := some [], confidence := 50 }).1 rfl, ?_⟩
  exact (absent_fields_yield_null docSubTotalNoCurrency).2.2.2.2.2.2.2.1
    { value_string := none, value_date := none, value_currency := none } rfl rfl

/-- C4: the currency slot of an extracted record is non-null exactly when
the InvoiceTotal field of the source document is present and carries a
currency sub-value. -/
theorem currency_slot_iff_invoiceTotal_currency (doc : Document) :
    ∃ v, recGet (extractDoc doc) "currency" = some v ∧
      (v ≠ Val.null ↔ ∃ f c, fieldsGet (doc.fields.getD []) "InvoiceTotal" = some f ∧
        f.value_currency = some c) := by
  refine ⟨codeSlot (fieldsGet (doc.fields.getD []) "InvoiceTotal"),
    recGet_extractDoc_currency doc, ?_⟩
  cases h : fieldsGet (doc.fields.getD []) "InvoiceTotal" with
  | none => simp [codeSlot]
  | some f =>
    cases hc : f.value_currency with
    | none => simp [codeSlot, hc]
    | some c => simp [codeSlot, hc]

/-- C8: a document whose fields attribute is None still yields a full
record, all eight field-derived slots null and confidence carried over. -/
theorem none_fields_all_null (doc : Document) (h : doc.fields = none) :
    extractDoc doc =
      [("vendorName", Val.null), ("invoiceId", Val.null), ("invoiceDate", Val.null),
       ("customerName", Val.null), ("subTotal", Val.null), ("totalTax", Val.null),
       ("invoiceTotal", Val.null), ("currency", Val.null),
       ("confidence", Val.num doc.confidence)] := by
  obtain ⟨fs, c⟩ := doc
  cases h
  rfl

theorem none_fields_all_null_witness :
    extractDoc { fields := none, confidence := 95 } =
      [("vendorName", Val.null), ("invoiceId", Val.null), ("invoiceDate", Val.null),
       ("customerName", Val.null), ("subTotal", Val.null), ("totalTax", Val.null),
       ("invoiceTotal", Val.null), ("currency", Val.null),
       ("confidence", Val.num 95)] :=
  none_fields_all_null { fields := none, confidence := 95 } rfl

/-! Helper lemmas for the persister. -/

theorem truthyStr_none : truthyStr none = false := rfl

theorem store_error_of_missing (env : Env) (gen : Nat → String) (now : String)
    (out : ExtractionOutput) (nm : String) (h : cosmosMissing env ≠ []) :
    store_in_cosmos env gen now out nm =
      Except.error ("Missing required Cosmos DB configuration: " ++
        String.intercalate ", " (cosmosMissing env)) := by
  match hm : cosmosMissing env with
  | [] => exact absurd hm h
  | a :: as => simp [store_in_cosmos, hm]

theorem store_ok_of_complete (env : Env) (gen : Nat → String) (now : String)
    (out : ExtractionOutput) (nm : String) (h : cosmosMissing env = []) :
    store_in_cosmos env gen now out nm =
      Except.ok
        { id := gen 0
          invoiceId := orElseVal (recGet (first_document out) "invoiceId")
            (Val.str (gen 1))
          sourceFile := nm
          processedAtUtc := now
          extract := out } := by
  simp [store_in_cosmos, h]

/-- The environment with every variable set, used by witnesses. -/
def envAllSet : Env :=
  { documentintelligence_endpoint := some "https://di.example"
    documentintelligence_api_key := some "di-key"
    cosmos_endpoint := some "https://cosmos.example"
    cosmos_key := some "cosmos-key"
    cosmos_database := some "invoices-db"
    cosmos_container := some "invoices" }

/-- A deterministic fresh-identifier supply used by witnesses. -/
def genW : Nat → String := fun n => "uuid-" ++ toString n

/-- C6: any missing Cosmos configuration value makes store_in_cosmos fail
with a message enumerating every missing variable; with only the endpoint
set, the message lists the key, database and container variables. -/
theorem missing_cosmos_config_enumerated :
    (∀ (env : Env) (gen : Nat → String) (now : String) (out : ExtractionOutput)
      (nm : String), cosmosMissing env ≠ [] →
      store_in_cosmos env gen now out nm =
        Except.error ("Missing required Cosmos DB configuration: " ++
          String.intercalate ", " (cosmosMissing env))) ∧
    (∀ (e : String) (gen : Nat → String) (now : String) (out : ExtractionOutput)
      (nm : String), truthyStr (some e) = true →
      store_in_cosmos
        { documentintelligence_endpoint := none, documentintelligence_api_key := none,
          cosmos_endpoint := some e, cosmos_key := none, cosmos_database := none,
          cosmos_container := none } gen now out nm =
        Except.error
          "Missing required Cosmos DB configuration: COSMOS_KEY, COSMOS_DATABASE, COSMOS_CONTAINER") := by
  refine ⟨fun env gen now out nm h => store_error_of_missing env gen now out nm h, ?_⟩
  intro e gen now out nm he
  have hm : cosmosMissing
      { documentintelligence_endpoint := none, documentintelligence_api_key := none,
        cosmos_endpoint := some e, cosmos_key := none, cosmos_database := none,
        cosmos_container := none } =
      ["COSMOS_KEY", "COSMOS_DATABASE", "COSMOS_CONTAINER"] := by
    simp [cosmosMissing, he, truthyStr_none]
  rw [store_error_of_missing _ gen now out nm (by rw [hm]; exact fun h => nomatch h), hm]
  rfl

theorem missing_cosmos_config_enumerated_witness :
    store_in_cosmos
      { documentintelligence_endpoint := none, documentintelligence_api_key := none,
        cosmos_endpoint := some "https://cosmos.example", cosmos_key := none,
        cosmos_database := none, cosmos_container := none } genW
      "2026-01-01T00:00:00+00:00" { documents := some [] } "inv.pdf" =
      Except.error
        "Missing required Cosmos DB configuration: COSMOS_KEY, COSMOS_DATABASE, COSMOS_CONTAINER" :=
  missing_cosmos_config_enumerated.2 "https://cosmos.example" genW
    "2026-01-01T00:00:00+00:00" { documents := some [] } "inv.pdf" (by decide)

/-- C9: an ExtractionOutput whose documents list is empty, or whose
documents key is missing, is still persisted without an indexing error:
the envelope is built from an empty record and its invoiceId is the
freshly generated fallback identifier. -/
theorem empty_documents_store_succeeds (env : Env) (gen : Nat → String)
    (now nm : String) (h : cosmosMissing env = []) :
    store_in_cosmos env gen now { documents := some [] } nm =
      Except.ok
        { id := gen 0, invoiceId := Val.str (gen 1), sourceFile := nm,
          processedAtUtc := now, extract := { documents := some [] } } ∧
    store_in_cosmos env gen now { documents := none } nm =
      Except.ok
        { id := gen 0, invoiceId := Val.str (gen 1), sourceFile := nm,
          processedAtUtc := now, extract := { documents := none } } := by
  rw [store_ok_of_complete env gen now { documents := some [] } nm h,
    store_ok_of_complete env gen now { documents := none } nm h]
  exact ⟨rfl, rfl⟩

theorem empty_documents_store_succeeds_witness :
    store_in_cosmos envAllSet genW "2026-01-01T00:00:00+00:00"
      { documents := some [] } "inv.pdf" =
      Except.ok
        { id := genW 0, invoiceId := Val.str (genW 1), sourceFile := "inv.pdf",
          processedAtUtc := "2026-01-01T00:00:00+00:00",
          extract := { documents := some [] } } ∧
    store_in_cosmos envAllSet genW "2026-01-01T00:00:00+00:00"
      { documents := none } "inv.pdf" =
      Except.ok
        { id := genW 0, invoiceId := Val.str (genW 1), sourceFile := "inv.pdf",
          processedAtUtc := "2026-01-01T00:00:00+00:00",
          extract := { documents := none } } :=
  empty_documents_store_succeeds envAllSet genW "2026-01-01T00:00:00+00:00"
    "inv.pdf" (by decide)

/-- An extraction output whose first record carries an empty-string
invoiceId: a present, non-null extracted value that Python truthiness
nevertheless discards. -/
def outEmptyId : ExtractionOutput :=
  { documents := some [[("invoiceId", Val.str "")]] }

/-- C5 counterexample: the invoiceId of the first record is present (non-null,
the empty string), yet the invoiceId of the persisted envelope is the
generated fallback, not the extracted value — the envelope does not keep
every present extracted invoiceId. -/
theorem envelope_invoiceId_counterexample :
    recGet (first_document outEmptyId) "invoiceId" = some (Val.str "") ∧
    Val.str "" ≠ Val.null ∧
    store_in_cosmos envAllSet genW "2026-01-01T00:00:00+00:00" outEmptyId "inv.pdf" =
      Except.ok
        { id := "uuid-0", invoiceId := Val.str "uuid-1", sourceFile := "inv.pdf",
          processedAtUtc := "2026-01-01T00:00:00+00:00", extract := outEmptyId } ∧
    Val.str "uuid-1" ≠ Val.str "" := by
  exact ⟨rfl, by decide, rfl, by decide⟩

/-- C5 (amended): in the envelope built by store_in_cosmos, invoiceId is
never null: it equals the invoiceId of the first record when that value is
present and truthy (non-null and non-empty), and otherwise is the freshly
generated fallback identifier, distinct from the own id of the envelope
whenever the identifier supply yields distinct values. -/
theorem envelope_invoiceId_never_null (env : Env) (gen : Nat → String) (now : String)
    (out : ExtractionOutput) (nm : String) (hcfg : cosmosMissing env = [])
    (hg : gen 1 ≠ gen 0) :
    ∃ e, store_in_cosmos env gen now out nm = Except.ok e ∧
      e.invoiceId ≠ Val.null ∧
      (∀ v, recGet (first_document out) "invoiceId" = some v → valTruthy v = true →
        e.invoiceId = v) ∧
      ((∀ v, recGet (first_document out) "invoiceId" = some v → valTruthy v = false) →
        e.invoiceId = Val.str (gen 1) ∧ gen 1 ≠ e.id) := by
  refine ⟨_, store_ok_of_complete env gen now out nm hcfg, ?_, ?_, ?_⟩
  · show orElseVal (recGet (first_document out) "invoiceId") (Val.str (gen 1)) ≠ Val.null
    cases h : recGet (first_document out) "invoiceId" with
    | none => simp [orElseVal]
    | some v =>
      cases hv : valTruthy v with
      | false => simp [orElseVal, hv]
      | true =>
        simp only [orElseVal, hv, if_true]
        rintro rfl
        simp [valTruthy] at hv
  · intro v h hv
    show orElseVal (recGet (first_document out) "invoiceId") (Val.str (gen 1)) = v
    rw [h]
    simp [orElseVal, hv]
  · intro hall
    refine ⟨?_, hg⟩
    show orElseVal (recGet (first_document out) "invoiceId") (Val.str (gen 1)) =
      Val.str (gen 1)
    cases h : recGet (first_document out) "invoiceId" with
    | none => rfl
    | some v => simp [orElseVal, hall v h]

/-- An extraction output with a truthy extracted invoiceId. -/
def outInv100 : ExtractionOutput :=
  { documents := some [[("invoiceId", Val.str "INV-100")]] }

theorem envelope_invoiceId_never_null_witness :
    ∃ e, store_in_cosmos envAllSet genW "2026-01-01T00:00:00+00:00" outInv100
        "inv.pdf" = Except.ok e ∧
      e.invoiceId ≠ Val.null ∧
      (∀ v, recGet (first_document outInv100) "invoiceId" = some v →
        valTruthy v = true → e.invoiceId = v) ∧
      ((∀ v, recGet (first_document outInv100) "invoiceId" = some v →
        valTruthy v = false) →
        e.invoiceId = Val.str (genW 1) ∧ genW 1 ≠ e.id) :=
  envelope_invoiceId_never_null envAllSet genW "2026-01-01T00:00:00+00:00" outInv100
    "inv.pdf" (by decide) (by decide)

/-- C10: an environment variable set to the empty string is treated as
unset: an empty analysis endpoint raises the configuration error, with
the same outcome as an unset one, and an empty Cosmos value is included
in the missing-variable list, which makes store_in_cosmos fail with the
enumerating error. -/
theorem empty_string_env_treated_as_unset :
    (∀ (env : Env) (r : AnalysisResult), env.documentintelligence_endpoint = some "" →
      analyze_invoice env r =
        Except.error "Set DOCUMENTINTELLIGENCE_ENDPOINT in your environment." ∧
      analyze_invoice env r =
        analyze_invoice { env with documentintelligence_endpoint := none } r) ∧
    (∀ env : Env, env.cosmos_endpoint = some "" →
      "COSMOS_ENDPOINT" ∈ cosmosMissing env) ∧
    (∀ env : Env, env.cosmos_key = some "" → "COSMOS_KEY" ∈ cosmosMissing env) ∧
    (∀ env : Env, env.cosmos_database = some "" →
      "COSMOS_DATABASE" ∈ cosmosMissing env) ∧
    (∀ env : Env, env.cosmos_container = some "" →
      "COSMOS_CONTAINER" ∈ cosmosMissing env) ∧
    (∀ (env : Env) (gen : Nat → String) (now : String) (out : ExtractionOutput)
      (nm : String), env.cosmos_key = some "" →
      store_in_cosmos env gen now out nm =
        Except.error ("Missing required Cosmos DB configuration: " ++
          String.intercalate ", " (cosmosMissing env))) := by
  have hkey : ∀ env : Env, env.cosmos_key = some "" →
      "COSMOS_KEY" ∈ cosmosMissing env := by
    intro env h
    unfold cosmosMissing
    refine List.mem_map_of_mem Prod.fst (List.mem_filter.2
      ⟨List.mem_cons_of_mem _ (List.mem_cons_self _ _), ?_⟩)
    rw [h]
    rfl
  refine ⟨?_, ?_, hkey, ?_, ?_, ?_⟩
  · intro env r h
    constructor
    · simp [analyze_invoice, truthyStr, h]
    · simp [analyze_invoice, truthyStr, h, truthyStr_none]
  · intro env h
    unfold cosmosMissing
    refine List.mem_map_of_mem Prod.fst (List.mem_filter.2
      ⟨List.mem_cons_self _ _, ?_⟩)
    rw [h]
    rfl
  · intro env h
    unfold cosmosMissing
    refine List.mem_map_of_mem Prod.fst (List.mem_filter.2
      ⟨List.mem_cons_of_mem _ (List.mem_cons_of_mem _ (List.mem_cons_self _ _)), ?_⟩)
    rw [h]
    rfl
  · intro env h
    unfold cosmosMissing
    refine List.mem_map_of_mem Prod.fst (List.mem_filter.2
      ⟨List.mem_cons_of_mem _ (List.mem_cons_of_mem _ (List.mem_cons_of_mem _
        (List.mem_cons_self _ _))), ?_⟩)
    rw [h]
    rfl
  · intro env gen now out nm h
    exact store_error_of_missing env gen now out nm (List.ne_nil_of_mem (hkey env h))

/-- The environment whose analysis endpoint and Cosmos key are set to the
empty string and whose other Cosmos values are set. -/
def envEmptyStrs : Env :=
  { documentintelligence_endpoint := some "", documentintelligence_api_key := none,
    cosmos_endpoint := some "https://cosmos.example", cosmos_key := some "",
    cosmos_database := some "invoices-db", cosmos_container := some "invoices" }

theorem empty_string_env_treated_as_unset_witness :
    analyze_invoice envEmptyStrs { documents := [] } =
      Except.error "Set DOCUMENTINTELLIGENCE_ENDPOINT in your environment." ∧
    "COSMOS_KEY" ∈ cosmosMissing envEmptyStrs ∧
    store_in_cosmos envEmptyStrs genW "2026-01-01T00:00:00+00:00"
      { documents := some [] } "inv.pdf" =
      Except.error ("Missing required Cosmos DB configuration: " ++
        String.intercalate ", " (cosmosMissing envEmptyStrs)) :=
  ⟨(empty_string_env_treated_as_unset.1 envEmptyStrs { documents := [] } rfl).1,
   empty_string_env_treated_as_unset.2.2.1 envEmptyStrs rfl,
   empty_string_env_treated_as_unset.2.2.2.2.2 envEmptyStrs genW
     "2026-01-01T00:00:00+00:00" { documents := some [] } "inv.pdf" rfl⟩

/-- The environment with the analysis endpoint set but no Cosmos
configuration at all. -/
def envNoCosmos : Env :=
  { documentintelligence_endpoint := some "https://di.example",
    documentintelligence_api_key := none, cosmos_endpoint := none,
    cosmos_key := none, cosmos_database := none, cosmos_container := none }

/-- C2 (code behaviour at the failing input): main unconditionally calls
store_in_cosmos, so a run with the analysis endpoint configured but
without any Cosmos configuration raises the missing-configuration error
and never prints the extraction JSON — the code has no non-persistence
variant in which the run completes. -/
theorem main_always_persists (r : AnalysisResult) (gen : Nat → String)
    (now nm : String) :
    main true envNoCosmos r gen now nm =
      ([Event.analyzeNetworkCall], Except.error (MainError.valueError
        "Missing required Cosmos DB configuration: COSMOS_ENDPOINT, COSMOS_KEY, COSMOS_DATABASE, COSMOS_CONTAINER")) ∧
    Event.printJson ∉ (main true envNoCosmos r gen now nm).1 := by
  refine ⟨rfl, ?_⟩
  show Event.printJson ∉ [Event.analyzeNetworkCall]
  decide

/-- C7: when the positional path does not exist, main fails at once with
the file-not-found error: the event trace is empty, so neither the
analysis network call nor the store write is ever attempted. -/
theorem missing_file_fails_before_network (env : Env) (r : AnalysisResult)
    (gen : Nat → String) (now nm : String) :
    main false env r gen now nm =
      ([], Except.error (MainError.fileNotFound ("Invoice file not found: " ++ nm))) :=
  rfl

end InvoiceCLI
